import Mathlib

/-!
Shallow embedding of the token-refresh subsystem in
src/envoy/token/token_subscriber.cc (class TokenSubscriber).

The subscriber orchestrates fetch/parse/schedule/retry cycles for a bearer
token.  Its mutable state is the nullable outstanding-request handle
(active_request_); every other member is immutable configuration or an
externally owned collaborator (timer, init target, async client, logger).
We model each member function as a pure Lean function from the subscriber
state to the new state paired with the ordered list of observable effects
(actions) the C++ body performs: cancelling a request, sending a request,
arming the timer, invoking the consumer callback, signalling the readiness
target, and logging at a given severity.  Request handles are numbered with
a fresh counter so that cancellation and replacement are observable.
-/

namespace TokenLib

/-- Kind of the token being fetched.  The C++ enum TokenType has the two
listed members; the switch in processResponse nevertheless carries a default
branch, reachable in C++ for an enum value outside the listed ones, modelled
here by the extra constructor UnknownType. -/
inductive TokenType
  | IdentityToken
  | AccessToken
  | UnknownType
deriving DecidableEq, BEq, Repr

/-- Result of parsing a token-endpoint response body: the token string and
the remaining validity in seconds (std::chrono::seconds, a signed count). -/
structure TokenResult where
  token : String
  expiry_duration : Int
deriving DecidableEq, BEq, Repr

/-- Outbound request message built by TokenInfo; the subscriber never
inspects its content, only forwards it, so we record just the URL it was
built for. -/
structure RequestMessage where
  url : String
deriving DecidableEq, BEq, Repr

/-- Options attached to the outbound request by refresh():
setTimeout(kRequestTimeoutMs) and setSendXff(false). -/
structure RequestOptions where
  timeout_ms : Nat
  send_xff : Bool
deriving DecidableEq, BEq, Repr

/-- Log severities used by the subscriber (ENVOY_LOG levels). -/
inductive LogSeverity
  | debug
  | warn
  | error
deriving DecidableEq, BEq, Repr

/-- Observable effects performed by the subscriber, in program order. -/
inductive Action
  | cancelRequest (id : Nat)
  | sendRequest (cluster : String) (opts : RequestOptions) (id : Nat)
  | enableTimer (seconds : Int)
  | invokeCallback (token : String)
  | readySignal
  | log (sev : LogSeverity)
deriving DecidableEq, BEq, Repr

/-- Inbound HTTP response: the status header (none when the status is
missing or unreadable, in which case getResponseStatus throws in C++) and
the body string. -/
structure ResponseMessage where
  status : Option Nat
  body : String
deriving DecidableEq, BEq, Repr

/-- External TokenInfo collaborator: builds the outbound request (none
signals unmet preconditions) and parses the two response-body shapes (none
models the boolean failure return of the C++ parse methods). -/
structure TokenInfo where
  prepareRequest : String → Option RequestMessage
  parseIdentityToken : String → Option TokenResult
  parseAccessToken : String → Option TokenResult

/-- Immutable configuration of one subscriber (constructor arguments). -/
structure Config where
  token_type : TokenType
  token_cluster : String
  token_url : String
  token_info : TokenInfo

/-- Mutable state of one subscriber: the nullable outstanding-request
handle, plus a fresh-id counter used to name successive requests. -/
structure SubscriberState where
  active_request : Option Nat
  next_request_id : Nat
deriving DecidableEq, BEq, Repr

/-- Request timeout, kRequestTimeoutMs = std::chrono::milliseconds(5000). -/
def kRequestTimeoutMs : Nat := 5000

/-- Delay after a failed fetch, kFailedRequestRetryTime =
std::chrono::seconds(2). -/
def kFailedRequestRetryTime : Int := 2

/-- Buffer subtracted from the expiry to schedule the next refresh,
kRefreshBuffer = std::chrono::seconds(5). -/
def kRefreshBuffer : Int := 5

/-- Numeric value of Envoy::Http::Code::OK. -/
def httpOK : Nat := 200

/-- TokenSubscriber::handleFailResponse: clears active_request_ and arms
the refresh timer for the fixed retry delay. -/
def handleFailResponse (s : SubscriberState) : SubscriberState × List Action :=
  ({ s with active_request := none },
   [Action.enableTimer kFailedRequestRetryTime])

/-- TokenSubscriber::refresh: cancels any outstanding request, logs, asks
TokenInfo to build the request; when preconditions are unmet (nullptr) it
logs a warning and routes to handleFailResponse, otherwise it sends the
request with the fixed timeout and X-Forwarded-For suppressed and stores
the new handle in active_request_. -/
def refresh (cfg : Config) (s : SubscriberState) : SubscriberState × List Action :=
  let cancelActs : List Action :=
    match s.active_request with
    | some id => [Action.cancelRequest id]
    | none => []
  match cfg.token_info.prepareRequest cfg.token_url with
  | none =>
      ((handleFailResponse s).1,
       cancelActs ++ [Action.log LogSeverity.debug, Action.log LogSeverity.warn]
         ++ (handleFailResponse s).2)
  | some _message =>
      ({ active_request := some s.next_request_id,
         next_request_id := s.next_request_id + 1 },
       cancelActs ++ [Action.log LogSeverity.debug,
         Action.sendRequest cfg.token_cluster
           { timeout_ms := kRequestTimeoutMs, send_xff := false }
           s.next_request_id])

/-- TokenSubscriber::handleSuccessResponse: clears active_request_, logs,
invokes the consumer callback with the token, then either refreshes
immediately (expires_in within the buffer) or arms the timer for
expires_in minus the buffer, and finally signals the init target ready. -/
def handleSuccessResponse (cfg : Config) (s : SubscriberState)
    (token : String) (expires_in : Int) : SubscriberState × List Action :=
  let s0 : SubscriberState := { s with active_request := none }
  let headActs : List Action :=
    [Action.log LogSeverity.debug, Action.invokeCallback token]
  if expires_in ≤ kRefreshBuffer then
    ((refresh cfg s0).1, headActs ++ (refresh cfg s0).2 ++ [Action.readySignal])
  else
    (s0, headActs ++ [Action.enableTimer (expires_in - kRefreshBuffer),
      Action.readySignal])

/-- Envoy::Http::Utility::getResponseStatus: reads the status header,
throwing (modelled as Except.error) when it is absent. -/
def getResponseStatus (r : ResponseMessage) : Except String Nat :=
  match r.status with
  | some code => Except.ok code
  | none => Except.error "missing status header"

/-- TokenSubscriber::processResponse: reads the status (converting a thrown
EnvoyException into the failure path), treats any non-OK status as failure,
dispatches body parsing on the token kind (the default branch of the C++
switch only logs and returns), and routes a parse failure to
handleFailResponse and a parse success to handleSuccessResponse. -/
def processResponse (cfg : Config) (s : SubscriberState)
    (response : ResponseMessage) : SubscriberState × List Action :=
  match getResponseStatus response with
  | Except.error _e =>
      ((handleFailResponse s).1,
       Action.log LogSeverity.error :: (handleFailResponse s).2)
  | Except.ok status_code =>
      if status_code ≠ httpOK then
        ((handleFailResponse s).1,
         Action.log LogSeverity.error :: (handleFailResponse s).2)
      else
        match cfg.token_type with
        | TokenType.IdentityToken =>
            match cfg.token_info.parseIdentityToken response.body with
            | some result =>
                handleSuccessResponse cfg s result.token result.expiry_duration
            | none => handleFailResponse s
        | TokenType.AccessToken =>
            match cfg.token_info.parseAccessToken response.body with
            | some result =>
                handleSuccessResponse cfg s result.token result.expiry_duration
            | none => handleFailResponse s
        | TokenType.UnknownType =>
            (s, [Action.log LogSeverity.error])

/-- TokenSubscriber::onSuccess: logs the response and delegates to
processResponse. -/
def onSuccess (cfg : Config) (s : SubscriberState)
    (response : ResponseMessage) : SubscriberState × List Action :=
  ((processResponse cfg s response).1,
   Action.log LogSeverity.debug :: (processResponse cfg s response).2)

/-- Transport-level failure reasons delivered to onFailure. -/
inductive FailureReason
  | Reset
  | OtherNetworkFailure
deriving DecidableEq, BEq, Repr

/-- TokenSubscriber::onFailure: logs the concrete reason at error severity
(both switch branches log error) and routes to handleFailResponse. -/
def onFailure (s : SubscriberState) (_reason : FailureReason) :
    SubscriberState × List Action :=
  ((handleFailResponse s).1,
   Action.log LogSeverity.error :: (handleFailResponse s).2)

/-- TokenSubscriber destructor: cancels the outstanding request when one
exists, otherwise performs no cancellation. -/
def destructorActions (s : SubscriberState) : List Action :=
  match s.active_request with
  | some id => [Action.cancelRequest id]
  | none => []

/-- External stimuli a live subscriber reacts to: the init target or the
refresh timer firing (both wired to refresh()), and the async client
completing the outstanding request with success or failure. -/
inductive Event
  | timerFired
  | transportSuccess (r : ResponseMessage)
  | transportFailure (reason : FailureReason)

/-- One reaction of the subscriber to one external stimulus. -/
def step (cfg : Config) (s : SubscriberState) : Event → SubscriberState × List Action
  | Event.timerFired => refresh cfg s
  | Event.transportSuccess r => onSuccess cfg s r
  | Event.transportFailure reason => onFailure s reason

/-- Fold of step over a whole event history, collecting all actions the
subscriber performed across its lifetime, in order. -/
def run (cfg : Config) (s : SubscriberState) : List Event → SubscriberState × List Action
  | [] => (s, [])
  | e :: rest =>
      ((run cfg (step cfg s e).1 rest).1,
       (step cfg s e).2 ++ (run cfg (step cfg s e).1 rest).2)

/-- State of a freshly constructed subscriber: active_request_ = nullptr. -/
def initialState : SubscriberState :=
  { active_request := none, next_request_id := 0 }

/-- A TokenInfo whose request building always succeeds and whose identity
parser always yields token "t" valid for 3600 seconds. -/
def demoTokenInfo : TokenInfo :=
  { prepareRequest := fun u => some { url := u },
    parseIdentityToken := fun _b => some { token := "t", expiry_duration := 3600 },
    parseAccessToken := fun _b => none }

/-- An identity-token subscriber configuration over demoTokenInfo. -/
def demoConfig : Config :=
  { token_type := TokenType.IdentityToken,
    token_cluster := "c",
    token_url := "u",
    token_info := demoTokenInfo }

/-- A TokenInfo whose preconditions are never met and whose parsers always
fail. -/
def failingTokenInfo : TokenInfo :=
  { prepareRequest := fun _u => none,
    parseIdentityToken := fun _b => none,
    parseAccessToken := fun _b => none }

/-- An access-token subscriber configuration over failingTokenInfo. -/
def failingConfig : Config :=
  { token_type := TokenType.AccessToken,
    token_cluster := "c",
    token_url := "u",
    token_info := failingTokenInfo }

/-- A subscriber configuration carrying a token kind outside the two listed
enum members, exercising the default branch of processResponse. -/
def unknownConfig : Config :=
  { token_type := TokenType.UnknownType,
    token_cluster := "c",
    token_url := "u",
    token_info := demoTokenInfo }

/-- A state with request number 0 outstanding. -/
def busyState : SubscriberState :=
  { active_request := some 0, next_request_id := 1 }

/-- An OK response with an arbitrary body. -/
def okResponse : ResponseMessage := { status := some 200, body := "b" }

/-- A 503 response. -/
def badStatusResponse : ResponseMessage := { status := some 503, body := "b" }

/-- A response whose status header is missing, making getResponseStatus
throw. -/
def noStatusResponse : ResponseMessage := { status := none, body := "b" }

/-- An event history of two fetch rounds, both succeeding. -/
def twoSuccessTrace : List Event :=
  [Event.timerFired, Event.transportSuccess okResponse,
   Event.timerFired, Event.transportSuccess okResponse]

/-- The failure handler clears the outstanding-request handle. -/
theorem handleFailResponse_active (s : SubscriberState) :
    (handleFailResponse s).1.active_request = none := rfl

/-- The only effect of the failure handler is arming the retry timer. -/
theorem handleFailResponse_acts (s : SubscriberState) :
    (handleFailResponse s).2 = [Action.enableTimer kFailedRequestRetryTime] := rfl

/-- A refresh never signals readiness. -/
theorem refresh_no_ready (cfg : Config) (s : SubscriberState) :
    Action.readySignal ∉ (refresh cfg s).2 := by
  unfold refresh
  cases cfg.token_info.prepareRequest cfg.token_url <;>
    cases s.active_request <;> simp [handleFailResponse]

/-- A refresh never invokes the consumer callback. -/
theorem refresh_no_callback (cfg : Config) (s : SubscriberState) (t : String) :
    Action.invokeCallback t ∉ (refresh cfg s).2 := by
  unfold refresh
  cases cfg.token_info.prepareRequest cfg.token_url <;>
    cases s.active_request <;> simp [handleFailResponse]

/-- Every success handler invocation signals readiness. -/
theorem handleSuccessResponse_ready (cfg : Config) (s : SubscriberState)
    (t : String) (e : Int) :
    Action.readySignal ∈ (handleSuccessResponse cfg s t e).2 := by
  unfold handleSuccessResponse
  by_cases h : e ≤ kRefreshBuffer <;> simp [h]

/-- Every success handler invocation delivers the token to the consumer. -/
theorem handleSuccessResponse_callback (cfg : Config) (s : SubscriberState)
    (t : String) (e : Int) :
    Action.invokeCallback t ∈ (handleSuccessResponse cfg s t e).2 := by
  unfold handleSuccessResponse
  by_cases h : e ≤ kRefreshBuffer <;> simp [h]

/-- Branch equation: a response without a readable status is converted into
the failure path with an error log. -/
theorem processResponse_noStatus (cfg : Config) (s : SubscriberState)
    (r : ResponseMessage) (h : r.status = none) :
    processResponse cfg s r =
      ({ s with active_request := none },
       [Action.log LogSeverity.error, Action.enableTimer kFailedRequestRetryTime]) := by
  simp [processResponse, getResponseStatus, h, handleFailResponse]

/-- Branch equation: a non-OK status is routed to the failure path with an
error log. -/
theorem processResponse_badStatus (cfg : Config) (s : SubscriberState)
    (r : ResponseMessage) (code : Nat) (h : r.status = some code)
    (hc : code ≠ httpOK) :
    processResponse cfg s r =
      ({ s with active_request := none },
       [Action.log LogSeverity.error, Action.enableTimer kFailedRequestRetryTime]) := by
  simp [processResponse, getResponseStatus, h, hc, handleFailResponse]

/-- Branch equation: OK status, identity kind, parse success delegates to
the success handler. -/
theorem processResponse_identity_some (cfg : Config) (s : SubscriberState)
    (r : ResponseMessage) (result : TokenResult) (h : r.status = some httpOK)
    (ht : cfg.token_type = TokenType.IdentityToken)
    (hp : cfg.token_info.parseIdentityToken r.body = some result) :
    processResponse cfg s r =
      handleSuccessResponse cfg s result.token result.expiry_duration := by
  simp [processResponse, getResponseStatus, h, ht, hp]

/-- Branch equation: OK status, identity kind, parse failure is routed to
the failure handler. -/
theorem processResponse_identity_none (cfg : Config) (s : SubscriberState)
    (r : ResponseMessage) (h : r.status = some httpOK)
    (ht : cfg.token_type = TokenType.IdentityToken)
    (hp : cfg.token_info.parseIdentityToken r.body = none) :
    processResponse cfg s r = handleFailResponse s := by
  simp [processResponse, getResponseStatus, h, ht, hp]

/-- Branch equation: OK status, access kind, parse success delegates to the
success handler. -/
theorem processResponse_access_some (cfg : Config) (s : SubscriberState)
    (r : ResponseMessage) (result : TokenResult) (h : r.status = some httpOK)
    (ht : cfg.token_type = TokenType.AccessToken)
    (hp : cfg.token_info.parseAccessToken r.body = some result) :
    processResponse cfg s r =
      handleSuccessResponse cfg s result.token result.expiry_duration := by
  simp [processResponse, getResponseStatus, h, ht, hp]

/-- Branch equation: OK status, access kind, parse failure is routed to the
failure handler. -/
theorem processResponse_access_none (cfg : Config) (s : SubscriberState)
    (r : ResponseMessage) (h : r.status = some httpOK)
    (ht : cfg.token_type = TokenType.AccessToken)
    (hp : cfg.token_info.parseAccessToken r.body = none) :
    processResponse cfg s r = handleFailResponse s := by
  simp [processResponse, getResponseStatus, h, ht, hp]

/-- Branch equation: OK status with an unknown token kind only logs an
error and returns, leaving the state untouched. -/
theorem processResponse_unknown (cfg : Config) (s : SubscriberState)
    (r : ResponseMessage) (h : r.status = some httpOK)
    (ht : cfg.token_type = TokenType.UnknownType) :
    processResponse cfg s r = (s, [Action.log LogSeverity.error]) := by
  simp [processResponse, getResponseStatus, h, ht]

/-- In one processResponse run, readiness is signalled exactly when the
consumer callback is invoked: both happen on the successful-parse path and
on no other path. -/
theorem processResponse_ready_iff (cfg : Config) (s : SubscriberState)
    (r : ResponseMessage) :
    Action.readySignal ∈ (processResponse cfg s r).2 ↔
      ∃ t, Action.invokeCallback t ∈ (processResponse cfg s r).2 := by
  cases h : r.status with
  | none => rw [processResponse_noStatus cfg s r h]; simp
  | some code =>
    by_cases hc : code = httpOK
    · subst hc
      cases ht : cfg.token_type with
      | IdentityToken =>
        cases hp : cfg.token_info.parseIdentityToken r.body with
        | none => rw [processResponse_identity_none cfg s r h ht hp]; simp [handleFailResponse]
        | some result =>
          rw [processResponse_identity_some cfg s r result h ht hp]
          exact ⟨fun _ => ⟨result.token, handleSuccessResponse_callback cfg s _ _⟩,
            fun _ => handleSuccessResponse_ready cfg s _ _⟩
      | AccessToken =>
        cases hp : cfg.token_info.parseAccessToken r.body with
        | none => rw [processResponse_access_none cfg s r h ht hp]; simp [handleFailResponse]
        | some result =>
          rw [processResponse_access_some cfg s r result h ht hp]
          exact ⟨fun _ => ⟨result.token, handleSuccessResponse_callback cfg s _ _⟩,
            fun _ => handleSuccessResponse_ready cfg s _ _⟩
      | UnknownType => rw [processResponse_unknown cfg s r h ht]; simp
    · rw [processResponse_badStatus cfg s r code h hc]; simp

/-- In one step of the subscriber, readiness is signalled exactly when the
consumer callback is invoked. -/
theorem step_ready_iff (cfg : Config) (s : SubscriberState) (e : Event) :
    Action.readySignal ∈ (step cfg s e).2 ↔
      ∃ t, Action.invokeCallback t ∈ (step cfg s e).2 := by
  cases e with
  | timerFired =>
    simp only [step]
    exact ⟨fun h => absurd h (refresh_no_ready cfg s),
      fun ⟨t, ht⟩ => absurd ht (refresh_no_callback cfg s t)⟩
  | transportSuccess r =>
    simp only [step, onSuccess, List.mem_cons]
    constructor
    · rintro (h | h)
      · exact absurd h (by simp)
      · obtain ⟨t, ht⟩ := (processResponse_ready_iff cfg s r).1 h
        exact ⟨t, Or.inr ht⟩
    · rintro ⟨t, h | h⟩
      · exact absurd h (by simp)
      · exact Or.inr ((processResponse_ready_iff cfg s r).2 ⟨t, h⟩)
  | transportFailure reason =>
    simp [step, onFailure, handleFailResponse]

/-- A refresh leaves either no outstanding request or the freshly numbered
one. -/
theorem refresh_active (cfg : Config) (s : SubscriberState) :
    (refresh cfg s).1.active_request = none ∨
      (refresh cfg s).1.active_request = some s.next_request_id := by
  unfold refresh
  cases cfg.token_info.prepareRequest cfg.token_url <;>
    cases s.active_request <;> simp [handleFailResponse]

/-- A refresh never decreases the fresh-id counter. -/
theorem refresh_counter (cfg : Config) (s : SubscriberState) :
    s.next_request_id ≤ (refresh cfg s).1.next_request_id := by
  unfold refresh
  cases cfg.token_info.prepareRequest cfg.token_url <;>
    cases s.active_request <;> simp [handleFailResponse]

/-- The success handler leaves either no outstanding request or the freshly
numbered one issued by the immediate re-refresh. -/
theorem handleSuccessResponse_active (cfg : Config) (s : SubscriberState)
    (t : String) (e : Int) :
    (handleSuccessResponse cfg s t e).1.active_request = none ∨
      (handleSuccessResponse cfg s t e).1.active_request = some s.next_request_id := by
  unfold handleSuccessResponse
  by_cases hb : e ≤ kRefreshBuffer
  · rw [if_pos hb]
    exact refresh_active cfg { s with active_request := none }
  · rw [if_neg hb]
    exact Or.inl rfl

/-- Claim C1, counterexample: the code invokes ready() on the readiness
target on every successful parse, not at most once; a history of two
successful fetch rounds signals readiness twice. -/
theorem c1_counterexample :
    ¬ ((run demoConfig initialState twoSuccessTrace).2.count Action.readySignal ≤ 1) := by
  decide

/-- Claim C1 (amended): over any event history, the subscriber signals
readiness (at least once) if and only if some fetch succeeded, i.e. the
consumer callback was invoked; in particular a history containing only
failures never signals readiness, and readiness is never signalled on a
failure path. -/
theorem c1_ready_iff_callback (cfg : Config) (events : List Event) :
    ∀ s : SubscriberState,
      (Action.readySignal ∈ (run cfg s events).2 ↔
        ∃ t, Action.invokeCallback t ∈ (run cfg s events).2) := by
  induction events with
  | nil => intro s; simp [run]
  | cons e rest ih =>
    intro s
    simp only [run, List.mem_append]
    constructor
    · rintro (h | h)
      · obtain ⟨t, ht⟩ := (step_ready_iff cfg s e).1 h
        exact ⟨t, Or.inl ht⟩
      · obtain ⟨t, ht⟩ := (ih _).1 h
        exact ⟨t, Or.inr ht⟩
    · rintro ⟨t, h | h⟩
      · exact Or.inl ((step_ready_iff cfg s e).2 ⟨t, h⟩)
      · exact Or.inr ((ih _).2 ⟨t, h⟩)

/-- Claim C2: on every successful fetch the consumer callback receives the
token; when the expiry is within the refresh buffer (5 seconds) the handler
performs an immediate recursive refresh with no timer arming for the next
fetch, and otherwise it arms the recurring timer for exactly the expiry
minus 5 seconds. -/
theorem c2_success_scheduling (cfg : Config) (s : SubscriberState)
    (t : String) (e : Int) :
    Action.invokeCallback t ∈ (handleSuccessResponse cfg s t e).2 ∧
    (e ≤ kRefreshBuffer →
      handleSuccessResponse cfg s t e =
        ((refresh cfg { s with active_request := none }).1,
         Action.log LogSeverity.debug :: Action.invokeCallback t ::
           ((refresh cfg { s with active_request := none }).2 ++
             [Action.readySignal]))) ∧
    (kRefreshBuffer < e →
      handleSuccessResponse cfg s t e =
        ({ s with active_request := none },
         [Action.log LogSeverity.debug, Action.invokeCallback t,
          Action.enableTimer (e - kRefreshBuffer), Action.readySignal])) := by
  refine ⟨handleSuccessResponse_callback cfg s t e, ?_, ?_⟩
  · intro hb
    simp [handleSuccessResponse, hb]
  · intro hb
    have hnb : ¬ e ≤ kRefreshBuffer := not_le.mpr hb
    simp [handleSuccessResponse, hnb]

/-- Claim C2, instantiated: a success with token "abc" and expiry 3600
seconds delivers "abc" to the consumer and arms the timer for 3595 seconds,
and a success with expiry 3 seconds refreshes immediately. -/
theorem c2_success_scheduling_witness :
    Action.invokeCallback "abc" ∈
      (handleSuccessResponse demoConfig initialState "abc" 3600).2 ∧
    handleSuccessResponse demoConfig initialState "abc" 3600 =
      ({ initialState with active_request := none },
       [Action.log LogSeverity.debug, Action.invokeCallback "abc",
        Action.enableTimer 3595, Action.readySignal]) ∧
    handleSuccessResponse demoConfig initialState "xyz" 3 =
      ((refresh demoConfig { initialState with active_request := none }).1,
       Action.log LogSeverity.debug :: Action.invokeCallback "xyz" ::
         ((refresh demoConfig { initialState with active_request := none }).2 ++
           [Action.readySignal])) :=
  ⟨(c2_success_scheduling demoConfig initialState "abc" 3600).1,
   (c2_success_scheduling demoConfig initialState "abc" 3600).2.2 (by decide),
   (c2_success_scheduling demoConfig initialState "xyz" 3).2.1 (by decide)⟩

/-- Claim C3: entering refresh() with a request outstanding cancels that
request as the very first effect, and afterwards the cancelled handle is
never the stored one: the handle holds either nothing (precondition-unmet
path) or the freshly numbered replacement request. -/
theorem c3_refresh_cancel_replace (cfg : Config) (s : SubscriberState) (id : Nat)
    (h : s.active_request = some id) (hfr : id < s.next_request_id) :
    (∃ rest, (refresh cfg s).2 = Action.cancelRequest id :: rest) ∧
    ((refresh cfg s).1.active_request = none ∨
      (refresh cfg s).1.active_request = some s.next_request_id) ∧
    (refresh cfg s).1.active_request ≠ some id := by
  have hne : (some s.next_request_id : Option Nat) ≠ some id := by
    intro hc
    rw [Option.some.inj hc] at hfr
    exact lt_irrefl id hfr
  cases hp : cfg.token_info.prepareRequest cfg.token_url with
  | none =>
    simp only [refresh, h, hp, handleFailResponse]
    exact ⟨⟨_, rfl⟩, Or.inl trivial, by simp⟩
  | some m =>
    simp only [refresh, h, hp]
    exact ⟨⟨_, rfl⟩, Or.inr trivial, hne⟩

/-- Claim C3, instantiated: refreshing while request 0 is outstanding emits
its cancellation first and stores a different handle. -/
theorem c3_refresh_cancel_replace_witness :
    (∃ rest, (refresh demoConfig busyState).2 = Action.cancelRequest 0 :: rest) ∧
    (refresh demoConfig busyState).1.active_request ≠ some 0 :=
  ⟨(c3_refresh_cancel_replace demoConfig busyState 0 rfl (by decide)).1,
   (c3_refresh_cancel_replace demoConfig busyState 0 rfl (by decide)).2.2⟩

/-- Observable outcome shared by all failure categories: the outstanding
handle is cleared, the only timer armed is the fixed 2-second retry timer,
and the consumer callback is not invoked. -/
def FailureOutcome (out : SubscriberState × List Action) : Prop :=
  out.1.active_request = none ∧
  Action.enableTimer kFailedRequestRetryTime ∈ out.2 ∧
  (∀ d, Action.enableTimer d ∈ out.2 → d = kFailedRequestRetryTime) ∧
  ∀ t, Action.invokeCallback t ∉ out.2

/-- The bare failure handler produces the failure outcome. -/
theorem failureOutcome_handleFail (s : SubscriberState) :
    FailureOutcome (handleFailResponse s) := by
  refine ⟨rfl, by simp [handleFailResponse], ?_, ?_⟩ <;>
    simp [handleFailResponse]

/-- The failure handler preceded by an error log produces the failure
outcome. -/
theorem failureOutcome_logFail (s : SubscriberState) :
    FailureOutcome ({ s with active_request := none },
      [Action.log LogSeverity.error, Action.enableTimer kFailedRequestRetryTime]) := by
  refine ⟨rfl, by simp, ?_, ?_⟩ <;> simp

/-- A refresh whose preconditions are unmet produces the failure outcome. -/
theorem failureOutcome_refreshFail (cfg : Config) (s : SubscriberState)
    (h : cfg.token_info.prepareRequest cfg.token_url = none) :
    FailureOutcome (refresh cfg s) := by
  cases ha : s.active_request with
  | none =>
    simp only [refresh, h, ha, handleFailResponse]
    refine ⟨rfl, by simp, ?_, ?_⟩ <;> simp
  | some id =>
    simp only [refresh, h, ha, handleFailResponse]
    refine ⟨rfl, by simp, ?_, ?_⟩ <;> simp

/-- Claim C4: every failure category — non-OK status, transport failure,
malformed response, identity or access parse failure, and unmet TokenInfo
precondition — clears the outstanding handle, arms only the fixed 2-second
retry timer, and never invokes the consumer callback. -/
theorem c4_failure_paths (cfg : Config) (s : SubscriberState) :
    (∀ r code, r.status = some code → code ≠ httpOK →
        FailureOutcome (processResponse cfg s r)) ∧
    (∀ reason, FailureOutcome (onFailure s reason)) ∧
    (∀ r, r.status = none → FailureOutcome (processResponse cfg s r)) ∧
    (∀ r, r.status = some httpOK → cfg.token_type = TokenType.IdentityToken →
        cfg.token_info.parseIdentityToken r.body = none →
        FailureOutcome (processResponse cfg s r)) ∧
    (∀ r, r.status = some httpOK → cfg.token_type = TokenType.AccessToken →
        cfg.token_info.parseAccessToken r.body = none →
        FailureOutcome (processResponse cfg s r)) ∧
    (cfg.token_info.prepareRequest cfg.token_url = none →
        FailureOutcome (refresh cfg s)) := by
  refine ⟨?_, ?_, ?_, ?_, ?_, ?_⟩
  · intro r code h hc
    rw [processResponse_badStatus cfg s r code h hc]
    exact failureOutcome_logFail s
  · intro reason
    exact failureOutcome_logFail s
  · intro r h
    rw [processResponse_noStatus cfg s r h]
    exact failureOutcome_logFail s
  · intro r h ht hp
    rw [processResponse_identity_none cfg s r h ht hp]
    exact failureOutcome_handleFail s
  · intro r h ht hp
    rw [processResponse_access_none cfg s r h ht hp]
    exact failureOutcome_handleFail s
  · intro h
    exact failureOutcome_refreshFail cfg s h

/-- Claim C4, instantiated: the failure outcome holds concretely for a 503
response, a stream reset, a response without a status header, an access
parse failure, and an unmet precondition. -/
theorem c4_failure_paths_witness :
    FailureOutcome (processResponse demoConfig busyState badStatusResponse) ∧
    FailureOutcome (onFailure busyState FailureReason.Reset) ∧
    FailureOutcome (processResponse demoConfig busyState noStatusResponse) ∧
    FailureOutcome (processResponse failingConfig busyState okResponse) ∧
    FailureOutcome (refresh failingConfig busyState) :=
  ⟨(c4_failure_paths demoConfig busyState).1 badStatusResponse 503 rfl (by decide),
   (c4_failure_paths demoConfig busyState).2.1 FailureReason.Reset,
   (c4_failure_paths demoConfig busyState).2.2.1 noStatusResponse rfl,
   (c4_failure_paths failingConfig busyState).2.2.2.2.1 okResponse rfl rfl rfl,
   (c4_failure_paths failingConfig busyState).2.2.2.2.2 rfl⟩

/-- Claim C5, counterexample: for an OK response under an unrecognized
token kind, the default branch of processResponse returns without clearing
the outstanding-request handle. -/
theorem c5_counterexample :
    ¬ ((processResponse unknownConfig busyState okResponse).1.active_request = none) := by
  decide

/-- Claim C5 (amended): on every completion path except the
unknown-token-kind branch, the handle of the completed request never survives
the handler: afterwards the handle holds nothing or the freshly numbered
request issued by an immediate re-refresh — and the unknown-token-kind
branch alone returns with the state untouched. -/
theorem c5_cleanup_except_unknown (cfg : Config) (s : SubscriberState)
    (r : ResponseMessage) (h : cfg.token_type ≠ TokenType.UnknownType) :
    ((processResponse cfg s r).1.active_request = none ∨
      (processResponse cfg s r).1.active_request = some s.next_request_id) ∧
    (∀ id, s.active_request = some id → id < s.next_request_id →
      (processResponse cfg s r).1.active_request ≠ some id) ∧
    (∀ reason, (onFailure s reason).1.active_request = none) := by
  have main : (processResponse cfg s r).1.active_request = none ∨
      (processResponse cfg s r).1.active_request = some s.next_request_id := by
    cases hst : r.status with
    | none => rw [processResponse_noStatus cfg s r hst]; exact Or.inl rfl
    | some code =>
      by_cases hc : code = httpOK
      · subst hc
        cases ht : cfg.token_type with
        | UnknownType => exact absurd ht h
        | IdentityToken =>
          cases hp : cfg.token_info.parseIdentityToken r.body with
          | none =>
            rw [processResponse_identity_none cfg s r hst ht hp]
            exact Or.inl rfl
          | some result =>
            rw [processResponse_identity_some cfg s r result hst ht hp]
            exact handleSuccessResponse_active cfg s result.token result.expiry_duration
        | AccessToken =>
          cases hp : cfg.token_info.parseAccessToken r.body with
          | none =>
            rw [processResponse_access_none cfg s r hst ht hp]
            exact Or.inl rfl
          | some result =>
            rw [processResponse_access_some cfg s r result hst ht hp]
            exact handleSuccessResponse_active cfg s result.token result.expiry_duration
      · rw [processResponse_badStatus cfg s r code hst hc]
        exact Or.inl rfl
  refine ⟨main, ?_, fun reason => rfl⟩
  intro id hid hlt hcontra
  rcases main with hnone | hfresh
  · rw [hcontra] at hnone
    exact Option.noConfusion hnone
  · rw [hcontra] at hfresh
    rw [Option.some.inj hfresh] at hlt
    exact lt_irrefl _ hlt

/-- Claim C5, instantiated: after a successful completion with request 0
outstanding the handle no longer holds request 0. -/
theorem c5_cleanup_witness :
    (processResponse demoConfig busyState okResponse).1.active_request ≠ some 0 :=
  (c5_cleanup_except_unknown demoConfig busyState okResponse (by decide)).2.1
    0 rfl (by decide)

/-- Claim C6: when TokenInfo cannot build the request (preconditions
unmet), refresh() sends no request, clears the handle, arms the 2-second
retry timer, and logs at warning severity with no error-severity log. -/
theorem c6_precondition_unmet (cfg : Config) (s : SubscriberState)
    (h : cfg.token_info.prepareRequest cfg.token_url = none) :
    (∀ c o id, Action.sendRequest c o id ∉ (refresh cfg s).2) ∧
    Action.enableTimer kFailedRequestRetryTime ∈ (refresh cfg s).2 ∧
    (refresh cfg s).1.active_request = none ∧
    Action.log LogSeverity.warn ∈ (refresh cfg s).2 ∧
    Action.log LogSeverity.error ∉ (refresh cfg s).2 := by
  cases ha : s.active_request with
  | none =>
    simp only [refresh, h, ha, handleFailResponse]
    refine ⟨?_, by simp, trivial, by simp, ?_⟩ <;> simp
  | some id =>
    simp only [refresh, h, ha, handleFailResponse]
    refine ⟨?_, by simp, trivial, by simp, ?_⟩ <;> simp

/-- Claim C6, instantiated: for a configuration whose preconditions always
fail, a refresh from the initial state arms the retry timer, logs a
warning, logs no error, sends nothing, and leaves no outstanding handle. -/
theorem c6_precondition_unmet_witness :
    Action.sendRequest "c" { timeout_ms := kRequestTimeoutMs, send_xff := false } 0 ∉
      (refresh failingConfig initialState).2 ∧
    Action.enableTimer kFailedRequestRetryTime ∈ (refresh failingConfig initialState).2 ∧
    (refresh failingConfig initialState).1.active_request = none ∧
    Action.log LogSeverity.warn ∈ (refresh failingConfig initialState).2 ∧
    Action.log LogSeverity.error ∉ (refresh failingConfig initialState).2 :=
  ⟨(c6_precondition_unmet failingConfig initialState rfl).1 "c"
      { timeout_ms := kRequestTimeoutMs, send_xff := false } 0,
   (c6_precondition_unmet failingConfig initialState rfl).2.1,
   (c6_precondition_unmet failingConfig initialState rfl).2.2.1,
   (c6_precondition_unmet failingConfig initialState rfl).2.2.2.1,
   (c6_precondition_unmet failingConfig initialState rfl).2.2.2.2⟩

/-- Claim C7: when the response status cannot be read, getResponseStatus
throws (modelled by Except.error) and processResponse converts the fault
locally into the normal failure and retry outcome; being a total function
into a plain state-and-actions pair, processResponse propagates no
exception for any input response. -/
theorem c7_malformed_caught (cfg : Config) (s : SubscriberState)
    (r : ResponseMessage) (h : r.status = none) :
    (∃ m, getResponseStatus r = Except.error m) ∧
    processResponse cfg s r =
      ({ s with active_request := none },
       [Action.log LogSeverity.error, Action.enableTimer kFailedRequestRetryTime]) := by
  refine ⟨⟨"missing status header", ?_⟩, processResponse_noStatus cfg s r h⟩
  simp [getResponseStatus, h]

/-- Claim C7, instantiated: a response without a status header produces
exactly an error log followed by the 2-second retry timer, with the handle
cleared. -/
theorem c7_malformed_caught_witness :
    processResponse demoConfig initialState noStatusResponse =
      ({ initialState with active_request := none },
       [Action.log LogSeverity.error, Action.enableTimer kFailedRequestRetryTime]) :=
  (c7_malformed_caught demoConfig initialState noStatusResponse rfl).2

/-- Claim C8: every outbound request emitted by refresh() carries a 5000 ms
timeout, has X-Forwarded-For forwarding suppressed, and goes to the
configured token cluster. -/
theorem c8_request_options (cfg : Config) (s : SubscriberState)
    (c : String) (o : RequestOptions) (id : Nat)
    (h : Action.sendRequest c o id ∈ (refresh cfg s).2) :
    o.timeout_ms = 5000 ∧ o.send_xff = false ∧ c = cfg.token_cluster := by
  cases hp : cfg.token_info.prepareRequest cfg.token_url with
  | none =>
    cases ha : s.active_request <;>
      simp only [refresh, hp, ha, handleFailResponse] at h <;>
      simp at h
  | some m =>
    cases ha : s.active_request <;>
      simp only [refresh, hp, ha] at h <;>
      simp at h <;>
      obtain ⟨hc, ho, hid⟩ := h <;>
      subst hc ho <;>
      exact ⟨rfl, rfl, rfl⟩

/-- Claim C8, instantiated: the request sent by a refresh under the demo
configuration carries the fixed options and the configured cluster. -/
theorem c8_request_options_witness :
    RequestOptions.timeout_ms { timeout_ms := kRequestTimeoutMs, send_xff := false } = 5000 ∧
    RequestOptions.send_xff { timeout_ms := kRequestTimeoutMs, send_xff := false } = false ∧
    "c" = demoConfig.token_cluster :=
  c8_request_options demoConfig initialState "c"
    { timeout_ms := kRequestTimeoutMs, send_xff := false } 0
    (by simp [refresh, demoConfig, demoTokenInfo, initialState])

/-- Claim C9: the destructor cancels the outstanding request exactly when
one exists and performs no cancellation otherwise; together with the
transport contract that the completion callback of a cancelled request never
fires, no callback reaches a destroyed subscriber. -/
theorem c9_destructor_cancel (s : SubscriberState) :
    (∀ id, s.active_request = some id →
      destructorActions s = [Action.cancelRequest id]) ∧
    (s.active_request = none → destructorActions s = []) := by
  constructor
  · intro id h
    simp [destructorActions, h]
  · intro h
    simp [destructorActions, h]

/-- Claim C9, instantiated: destroying with request 0 outstanding cancels
it; destroying with no request outstanding cancels nothing. -/
theorem c9_destructor_cancel_witness :
    destructorActions busyState = [Action.cancelRequest 0] ∧
    destructorActions initialState = [] :=
  ⟨(c9_destructor_cancel busyState).1 0 rfl,
   (c9_destructor_cancel initialState).2 rfl⟩

/-- Claim C10: on every successful fetch the readiness signal is the very
last effect of the success handler — after the consumer callback and after
the whole next refresh step, which on the immediate-refresh path is the
complete effect list of the recursive refresh() call (itself free of
readiness signals). -/
theorem c10_ready_ordering (cfg : Config) (s : SubscriberState)
    (t : String) (e : Int) :
    ∃ mid,
      (handleSuccessResponse cfg s t e).2 =
        Action.log LogSeverity.debug :: Action.invokeCallback t ::
          (mid ++ [Action.readySignal]) ∧
      Action.readySignal ∉ mid ∧
      (e ≤ kRefreshBuffer →
        mid = (refresh cfg { s with active_request := none }).2) := by
  by_cases hb : e ≤ kRefreshBuffer
  · refine ⟨(refresh cfg { s with active_request := none }).2, ?_,
      refresh_no_ready cfg _, fun _ => rfl⟩
    simp [handleSuccessResponse, hb]
  · refine ⟨[Action.enableTimer (e - kRefreshBuffer)], ?_, by simp,
      fun hcontra => absurd hcontra hb⟩
    simp [handleSuccessResponse, hb]

/-- Claim C10, instantiated: for an expiry of 3 seconds the success handler
emits the callback, then the full recursive refresh effects, and signals
readiness last. -/
theorem c10_ready_ordering_witness :
    (handleSuccessResponse demoConfig initialState "x" 3).2 =
      Action.log LogSeverity.debug :: Action.invokeCallback "x" ::
        ((refresh demoConfig { initialState with active_request := none }).2 ++
          [Action.readySignal]) ∧
    Action.readySignal ∉
      (refresh demoConfig { initialState with active_request := none }).2 := by
  obtain ⟨mid, h1, h2, h3⟩ := c10_ready_ordering demoConfig initialState "x" 3
  rw [h3 (by decide)] at h1 h2
  exact ⟨h1, h2⟩

end TokenLib
